import Mathlib

/-!
Verification development for the `libusb` safe-access layer
(`src/context.rs`, `src/device.rs`).

The Rust code is shallowly embedded: raw native pointers become natural
numbers (`0` models the null pointer), the process-wide globals
(`LOG_CALLBACK_MAP`, `DEFAULT_CONTEXT_INITIALIZED_FLAG`) together with the
native library's observable side effects become an explicit state record
`LibState` threaded through every operation, and each native call the code
can issue is recorded in a trace.  Results of native calls (status codes,
returned pointers) are inputs of the embedded operations, playing the role
of the mock native layer the specification's test plan describes.

Closures (`Box<dyn Fn(LogLevel, String)>`) are modelled by numeric
identifiers; invoking one is recorded as an `Event`, which is what the
theorems below observe.
-/

namespace Libusb

/-- A raw native pointer (`*mut libusb_context`, `*mut libusb_device`, ...).
`0` models the null pointer (`std::ptr::null_mut()`). -/
abbrev Ptr := Nat

/-- Identifier standing for one registered closure
(`LogCallback = Box<dyn Fn(LogLevel, String)>`); closures are only
observed through the invocation events they produce. -/
abbrev CbId := Nat

/-- The contents of a NUL-terminated C message buffer, represented by its
UTF-8 decoding: `some s` when the bytes decode to the text `s`, `none` when
they are not valid UTF-8 (so `CStr::to_str` fails). -/
abbrev CMessage := Option String

/-! ### Native library constants (from the `libusb` FFI crate) -/

def LIBUSB_LOG_LEVEL_NONE : Int := 0
def LIBUSB_LOG_LEVEL_ERROR : Int := 1
def LIBUSB_LOG_LEVEL_WARNING : Int := 2
def LIBUSB_LOG_LEVEL_INFO : Int := 3
def LIBUSB_LOG_LEVEL_DEBUG : Int := 4
def LIBUSB_LOG_CB_GLOBAL : Int := 1
def LIBUSB_LOG_CB_CONTEXT : Int := 2

/-! ### Library logging levels (`LogLevel` in `src/context.rs`) -/

/-- Library logging levels. -/
inductive LogLevel where
  | none
  | error
  | warning
  | info
  | debug
deriving DecidableEq, Repr

/-- `LogLevel::as_c_int` from `src/context.rs`. -/
def LogLevel.as_c_int : LogLevel → Int
  | LogLevel.none => LIBUSB_LOG_LEVEL_NONE
  | LogLevel.error => LIBUSB_LOG_LEVEL_ERROR
  | LogLevel.warning => LIBUSB_LOG_LEVEL_WARNING
  | LogLevel.info => LIBUSB_LOG_LEVEL_INFO
  | LogLevel.debug => LIBUSB_LOG_LEVEL_DEBUG

/-- `LogLevel::from_c_int` from `src/context.rs`. -/
def LogLevel.from_c_int (raw : Int) : LogLevel :=
  if raw = LIBUSB_LOG_LEVEL_ERROR then LogLevel.error
  else if raw = LIBUSB_LOG_LEVEL_WARNING then LogLevel.warning
  else if raw = LIBUSB_LOG_LEVEL_INFO then LogLevel.info
  else if raw = LIBUSB_LOG_LEVEL_DEBUG then LogLevel.debug
  else LogLevel.none

/-- `LogCallbackMode` from `src/context.rs`. -/
inductive LogCallbackMode where
  | Global
  | Context
deriving DecidableEq, Repr

/-- `LogCallbackMode::as_c_int` from `src/context.rs`. -/
def LogCallbackMode.as_c_int : LogCallbackMode → Int
  | LogCallbackMode.Global => LIBUSB_LOG_CB_GLOBAL
  | LogCallbackMode.Context => LIBUSB_LOG_CB_CONTEXT

/-! ### Errors

Modelled from the spec: `error::from_libusb` lives in `src/error.rs`, which
is not present under `src/`.  Per the spec (sections 6 and 7), a negative
native status maps to a fixed enumeration of native error codes, and errors
carry the native code. -/

/-- Modelled from the spec: the fixed enumeration of native error codes
produced by `error::from_libusb` (I/O error, invalid parameter, access
denied, no device, not found, busy, timeout, overflow, pipe error,
interrupted, out of memory, not supported, other). -/
inductive USBError where
  | io
  | invalidParam
  | access
  | noDevice
  | notFound
  | busy
  | timeout
  | overflow
  | pipe
  | interrupted
  | noMem
  | notSupported
  | other (code : Int)
deriving DecidableEq, Repr

/-- Modelled from the spec: `error::from_libusb` (`src/error.rs` is not
under `src/`) maps a native status code to the fixed error enumeration,
preserving the code. -/
def error_from_libusb (code : Int) : USBError :=
  if code = -1 then USBError.io
  else if code = -2 then USBError.invalidParam
  else if code = -3 then USBError.access
  else if code = -4 then USBError.noDevice
  else if code = -5 then USBError.notFound
  else if code = -6 then USBError.busy
  else if code = -7 then USBError.timeout
  else if code = -8 then USBError.overflow
  else if code = -9 then USBError.pipe
  else if code = -10 then USBError.interrupted
  else if code = -11 then USBError.noMem
  else if code = -12 then USBError.notSupported
  else USBError.other code

/-- The native status code an error carries. -/
def USBError.toCode : USBError → Int
  | USBError.io => -1
  | USBError.invalidParam => -2
  | USBError.access => -3
  | USBError.noDevice => -4
  | USBError.notFound => -5
  | USBError.busy => -6
  | USBError.timeout => -7
  | USBError.overflow => -8
  | USBError.pipe => -9
  | USBError.interrupted => -10
  | USBError.noMem => -11
  | USBError.notSupported => -12
  | USBError.other code => code

/-! ### The log-callback registry (`LOG_CALLBACK_MAP`) -/

/-- The process-wide `LogCallbackMap`:
`HashMap<*mut libusb_context, LogCallback>` is modelled as a finite-support
map from pointers to closure identifiers (at most one callback per key, as
in a hash map). -/
abbrev Registry := Ptr → Option CbId

/-- `HashMap::insert`: replaces any previous entry under the same key. -/
def Registry.insert (r : Registry) (k : Ptr) (v : CbId) : Registry :=
  fun x => if x = k then some v else r x

/-- `HashMap::remove`: deletes the entry under `k`, if any. -/
def Registry.remove (r : Registry) (k : Ptr) : Registry :=
  fun x => if x = k then none else r x

/-- The empty registry. -/
def Registry.empty : Registry := fun _ => none

/-! ### Native calls and observable events -/

/-- A call into the native library, as recorded in the trace. -/
inductive NCall where
  | init (p : Ptr)
  | exit (p : Ptr)
  | setLogCb (p : Ptr) (mode : Int)
  | getDeviceList (p : Ptr)
  | openVidPid (p : Ptr) (vendor_id product_id : Nat)
  | refDevice (d : Ptr)
  | unrefDevice (d : Ptr)
deriving DecidableEq, Repr

/-- An invocation of a registered log closure with a level and a message. -/
inductive Event where
  | invoke (cb : CbId) (level : LogLevel) (message : String)
deriving DecidableEq, Repr

/-! ### The explicit program/native state -/

/-- The globals of `src/context.rs` plus the observable native-side state:
`log_callback_map` is `LOG_CALLBACK_MAP`,
`default_context_initialized_flag` is `DEFAULT_CONTEXT_INITIALIZED_FLAG`,
`strong` gives the `Arc<RawContextWrapper>` strong count per raw context
pointer, `dev_refcount` the native per-device reference count, and `calls`
the trace of native calls issued so far (oldest first). -/
structure LibState where
  log_callback_map : Registry
  default_context_initialized_flag : Bool
  strong : Ptr → Nat
  dev_refcount : Ptr → Nat
  calls : List NCall

/-- The initial state: empty registry, default context not initialized,
no live `Arc`s, no native calls issued. -/
def initState : LibState :=
  { log_callback_map := Registry.empty
    default_context_initialized_flag := false
    strong := fun _ => 0
    dev_refcount := fun _ => 0
    calls := [] }

/-! ### Context -/

/-- A `libusb` context: `Context { context: Arc<RawContextWrapper> }`.
The field holds the raw `*mut libusb_context` pointer (`**self.context`);
the `Arc`'s strong count is tracked in `LibState.strong`. -/
structure Context where
  context : Ptr
deriving DecidableEq, Repr

/-- `impl Clone for Context`: the clone shares the same raw pointer and
bumps the `Arc` strong count. -/
def Context.clone (c : Context) (s : LibState) : Context × LibState :=
  (⟨c.context⟩,
    { s with strong := fun x => if x = c.context then s.strong x + 1 else s.strong x })

/-- The key under which `Context::set_log_callback` stores the callback:
`std::ptr::null_mut()` for `Global` mode, `**self.context` for `Context`
mode. -/
def logKey : LogCallbackMode → Context → Ptr
  | LogCallbackMode.Global, _ => 0
  | LogCallbackMode.Context, c => c.context

/-- `Context::set_log_callback` from `src/context.rs`: under the registry
lock, insert the callback at the mode's key (replacing any previous entry),
then call `libusb_set_log_cb`. -/
def Context.set_log_callback (c : Context) (log_callback : CbId)
    (mode : LogCallbackMode) (s : LibState) : LibState :=
  { s with
    log_callback_map := s.log_callback_map.insert (logKey mode c) log_callback
    calls := s.calls ++ [NCall.setLogCb c.context mode.as_c_int] }

/-- `static_log_callback` from `src/context.rs`, the trampoline the native
library invokes.  `lock_ok` is the outcome of `LOG_CALLBACK_MAP.lock()`
(false models a poisoned mutex, silently skipped by the `if let Ok`).
It performs a single lookup with the exact `context` pointer passed by the
native library; a found closure is invoked once with
`CStr::to_str(..).unwrap_or("")`.  The returned list holds the invocation
events (empty: no callback ran). -/
def static_log_callback (lock_ok : Bool) (reg : Registry) (context : Ptr)
    (level : Int) (text : CMessage) : List Event :=
  if lock_ok then
    match reg context with
    | some logger => [Event.invoke logger (LogLevel.from_c_int level) (text.getD "")]
    | Option.none => []
  else []

/-- `Context::new` from `src/context.rs`: calls `libusb_init(&mut context)`.
`p` is the fresh raw pointer the native library writes back (the mock's
choice), `rc` its status code.  Modelled from the spec: the `try_unsafe!`
macro (its file is not under `src/`) returns early with the mapped error on
a negative native status (spec section 6: zero-or-positive is success).
On success the pointer is wrapped in `Arc::new(RawContextWrapper ..)`,
giving a strong count of one. -/
def Context.new (s : LibState) (p : Ptr) (rc : Int) :
    LibState × Except USBError Context :=
  let s1 := { s with calls := s.calls ++ [NCall.init p] }
  if rc < 0 then (s1, Except.error (error_from_libusb rc))
  else
    ({ s1 with strong := fun x => if x = p then s1.strong x + 1 else s1.strong x },
      Except.ok ⟨p⟩)

/-- `impl Drop for Context` from `src/context.rs`, together with the drop
of the `Arc<RawContextWrapper>` field that follows it.  The `Drop` body
removes this value's key from `LOG_CALLBACK_MAP` (it runs for every
`Context` value, clones included); then the `Arc` strong count is
decremented, and when the last owner goes away the inner wrapper is
dropped.  Modelled from the spec: `RawContextWrapper`'s own drop
(`src/context/raw_context_wrapper.rs` is not under `src/`) releases the
native context exactly once, i.e. calls `libusb_exit` on the pointer. -/
def Context.drop (c : Context) (s : LibState) : LibState :=
  let s1 := { s with log_callback_map := s.log_callback_map.remove c.context }
  if s1.strong c.context ≤ 1 then
    { s1 with
      strong := fun x => if x = c.context then 0 else s1.strong x
      calls := s1.calls ++ [NCall.exit c.context] }
  else
    { s1 with strong := fun x => if x = c.context then s1.strong x - 1 else s1.strong x }

/-- `Context::init_default_context` from `src/context.rs`: under the flag
lock, if the flag is unset, call `libusb_init(null)` (status `rc` supplied
by the mock; a negative status returns the mapped error with the flag still
unset) and set the flag; otherwise do nothing.  Returns `Ok(())` in every
non-error case. -/
def Context.init_default_context (s : LibState) (rc : Int) :
    LibState × Except USBError Unit :=
  if s.default_context_initialized_flag then (s, Except.ok ())
  else
    let s1 := { s with calls := s.calls ++ [NCall.init 0] }
    if rc < 0 then (s1, Except.error (error_from_libusb rc))
    else ({ s1 with default_context_initialized_flag := true }, Except.ok ())

/-- `Context::release_default_context` from `src/context.rs`: under the
flag lock, if the flag is set, call `libusb_exit(null)` and clear the
flag; otherwise do nothing. -/
def Context.release_default_context (s : LibState) : LibState :=
  if s.default_context_initialized_flag then
    { s with
      calls := s.calls ++ [NCall.exit 0]
      default_context_initialized_flag := false }
  else s

/-! ### Device list, device, device handle -/

/-- A device list (`DeviceList`): an owned native device array plus a
strong reference to the producing `Context`.  Modelled from the spec for
the parts whose file (`src/device_list.rs`) is not under `src/`: an owned,
fixed-size sequence of device references of length `len`. -/
structure DeviceList where
  context : Context
  list : Ptr
  len : Nat
deriving DecidableEq, Repr

/-- Modelled from the spec: `device_list::from_libusb`
(`src/device_list.rs` is not under `src/`) wraps the native array pointer
and the element count together with the (already cloned) `Context` that
produced it. -/
def DeviceList.from_libusb (context : Context) (list : Ptr) (len : Nat) :
    DeviceList :=
  ⟨context, list, len⟩

/-- `Context::devices` from `src/context.rs`: calls
`libusb_get_device_list`; the mock supplies the returned count `n` and
array pointer `list`.  A negative count maps to the enumeration error via
`error::from_libusb`; otherwise the list is wrapped with `self.clone()`
(bumping the `Arc` strong count) and length `n as usize`. -/
def Context.devices (c : Context) (s : LibState) (n : Int) (list : Ptr) :
    LibState × Except USBError DeviceList :=
  let s1 := { s with calls := s.calls ++ [NCall.getDeviceList c.context] }
  if n < 0 then (s1, Except.error (error_from_libusb n))
  else
    let cl := Context.clone c s1
    (cl.2, Except.ok (DeviceList.from_libusb cl.1 list n.toNat))

/-- An open device session (`DeviceHandle`): the raw handle plus a strong
reference to the `Context`.  Modelled from the spec for the parts whose
file (`src/device_handle.rs`) is not under `src/`. -/
structure DeviceHandle where
  context : Context
  handle : Ptr
deriving DecidableEq, Repr

/-- Modelled from the spec: `device_handle::from_libusb`
(`src/device_handle.rs` is not under `src/`) wraps the raw handle together
with the (already cloned) `Context`. -/
def DeviceHandle.from_libusb (context : Context) (handle : Ptr) :
    DeviceHandle :=
  ⟨context, handle⟩

/-- `Context::open_device_with_vid_pid` from `src/context.rs`: calls
`libusb_open_device_with_vid_pid`; the mock supplies the returned raw
handle (`0` models the null pointer the native call returns on no-match or
on any failure).  A null handle yields `None`; otherwise the handle is
wrapped with `self.clone()`. -/
def Context.open_device_with_vid_pid (c : Context) (s : LibState)
    (vendor_id product_id : Nat) (handle : Ptr) :
    LibState × Option DeviceHandle :=
  let s1 := { s with calls := s.calls ++ [NCall.openVidPid c.context vendor_id product_id] }
  if handle = 0 then (s1, Option.none)
  else
    let cl := Context.clone c s1
    (cl.2, some (DeviceHandle.from_libusb cl.1 handle))

/-- `Device` from `src/device.rs`: a raw device pointer plus an owned
`Context` (a clone, held as a strong reference). -/
structure Device where
  context : Context
  device : Ptr
deriving DecidableEq, Repr

/-- `device::from_libusb` from `src/device.rs`: wraps the pointer and the
`Context` as given.  The body performs no native call — in particular it
does not call `libusb_ref_device` — so the state is returned unchanged. -/
def Device.from_libusb (context : Context) (device : Ptr) (s : LibState) :
    Device × LibState :=
  (⟨context, device⟩, s)

/-- Dropping a `Device`: `src/device.rs` declares no `Drop` impl for
`Device`, so dropping one only drops its fields — the raw pointer field has
no drop effect and the `Context` field runs `Context`'s drop.  No
`libusb_unref_device` call is issued. -/
def Device.drop (d : Device) (s : LibState) : LibState :=
  Context.drop d.context s

/-! ### Operation sequences

Small-step traces over the context operations, used for the temporal
claims: each list element is one application-visible operation, executed
left to right against the explicit state. -/

/-- One application-side operation on the context subsystem. -/
inductive COp where
  | cloneOp (c : Context)
  | dropOp (c : Context)
  | setCbOp (c : Context) (cb : CbId) (mode : LogCallbackMode)
deriving DecidableEq, Repr

/-- Whether an operation inserts a registry entry at key `p`:
only `set_log_callback` inserts, at the key `logKey` selects. -/
def COp.insertsAt : COp → Ptr → Bool
  | COp.setCbOp c _ LogCallbackMode.Context, p => c.context == p
  | COp.setCbOp _ _ LogCallbackMode.Global, p => p == 0
  | _, _ => false

/-- Run a sequence of context operations left to right. -/
def runOps : LibState → List COp → LibState
  | s, [] => s
  | s, COp.cloneOp c :: rest => runOps (Context.clone c s).2 rest
  | s, COp.dropOp c :: rest => runOps (Context.drop c s) rest
  | s, COp.setCbOp c cb mode :: rest =>
      runOps (Context.set_log_callback c cb mode s) rest

/-- One application-side operation on the default (null) context. -/
inductive DOp where
  | initOp (rc : Int)
  | releaseOp
deriving DecidableEq, Repr

/-- The native status the mock returns for an operation (`0` for
`releaseOp`, which has no status). -/
def DOp.rcOf : DOp → Int
  | DOp.initOp rc => rc
  | DOp.releaseOp => 0

/-- Run a sequence of default-context operations left to right (the
returned `Result` of each call is discarded, as a caller retrying would). -/
def runDefaultOps : LibState → List DOp → LibState
  | s, [] => s
  | s, DOp.initOp rc :: rest => runDefaultOps (Context.init_default_context s rc).1 rest
  | s, DOp.releaseOp :: rest => runDefaultOps (Context.release_default_context s) rest

/-- Alternation checker for the trace of native calls on the default
context: starting from `some false` (not initialized), an `init 0` call is
legal exactly when uninitialized and an `exit 0` call exactly when
initialized; any other shape yields `none`. -/
def altStep : Option Bool → NCall → Option Bool
  | some false, NCall.init 0 => some true
  | some true, NCall.exit 0 => some false
  | _, _ => Option.none

/-- `some b`: the call list strictly alternates `init 0`, `exit 0`, ...
starting with `init 0`, ending in initialization state `b`;
`none`: the alternation is violated. -/
def defaultAlt (l : List NCall) : Option Bool :=
  l.foldl altStep (some false)

/-! ### Helper lemmas -/

/-- `Context`'s drop changes the registry exactly by removing its own key,
whether or not it was the last owning reference. -/
theorem Context.drop_registry (c : Context) (s : LibState) :
    (Context.drop c s).log_callback_map = s.log_callback_map.remove c.context := by
  by_cases h : s.strong c.context ≤ 1 <;> simp [Context.drop, h]

/-- `set_log_callback` changes the registry exactly by inserting at the
mode's key. -/
theorem Context.set_log_callback_registry (c : Context) (cb : CbId)
    (mode : LogCallbackMode) (s : LibState) :
    (Context.set_log_callback c cb mode s).log_callback_map
      = s.log_callback_map.insert (logKey mode c) cb := rfl

/-- Cloning a `Context` does not touch the registry. -/
theorem Context.clone_registry (c : Context) (s : LibState) :
    ((Context.clone c s).2).log_callback_map = s.log_callback_map := rfl

/-- Running context operations none of which inserts at key `p` keeps an
absent registry entry at `p` absent. -/
theorem registry_none_preserved (p : Ptr) :
    ∀ (ops : List COp) (s : LibState),
      s.log_callback_map p = Option.none →
      (∀ op ∈ ops, COp.insertsAt op p = false) →
      (runOps s ops).log_callback_map p = Option.none := by
  intro ops
  induction ops with
  | nil => intro s h _; exact h
  | cons op rest ih =>
    intro s h hops
    have htail : ∀ o ∈ rest, COp.insertsAt o p = false :=
      fun o ho => hops o (List.mem_cons_of_mem _ ho)
    cases op with
    | cloneOp c =>
        exact ih (Context.clone c s).2 h htail
    | dropOp c =>
        refine ih (Context.drop c s) ?_ htail
        rw [Context.drop_registry]
        by_cases hpc : p = c.context <;> simp [Registry.remove, hpc, h]
    | setCbOp c cb mode =>
        refine ih (Context.set_log_callback c cb mode s) ?_ htail
        have hhead := hops _ (List.mem_cons_self _ _)
        rw [Context.set_log_callback_registry]
        cases mode with
        | Global =>
            have hp0 : p ≠ 0 := by simpa [COp.insertsAt] using hhead
            simp [Registry.insert, logKey, hp0, h]
        | Context =>
            have hpc : c.context ≠ p := by simpa [COp.insertsAt] using hhead
            simp [Registry.insert, logKey, Ne.symm hpc, h]

/-! ### Claims -/

/-- C2: the claim states that the trampoline first looks up the exact
context identity and, when that entry is absent, falls back to the
global-sentinel entry, so a Global-scope callback would receive log lines
regardless of originating identity.  Counterexample: a registry holding
only the global-sentinel entry (key `0`, callback `9`); the trampoline
invoked with identity `1` finds no exact entry, consults no fallback and
invokes nothing. -/
theorem C2_counterexample :
    (Registry.insert Registry.empty 0 9) 0 = some 9
  ∧ (Registry.insert Registry.empty 0 9) 1 = Option.none
  ∧ static_log_callback true (Registry.insert Registry.empty 0 9) 1
      LIBUSB_LOG_LEVEL_ERROR (some "m") = [] := by
  refine ⟨rfl, rfl, rfl⟩

/-- C2 (amended): the trampoline performs a single lookup with the exact
context identity the native library passed; if an entry is present its
callback is invoked exactly once with the decoded text, and if absent
nothing is invoked — there is no fallback to the global-sentinel entry, so
the entry stored by a Global-scope registration (key `0`) is consulted
exactly for log lines delivered with the null identity. -/
theorem C2_single_exact_lookup (r : Registry) (p : Ptr) (level : Int)
    (text : CMessage) :
    (∀ cb : CbId, r p = some cb →
      static_log_callback true r p level text
        = [Event.invoke cb (LogLevel.from_c_int level) (text.getD "")])
  ∧ (r p = Option.none → static_log_callback true r p level text = []) := by
  constructor
  · intro cb hcb
    simp [static_log_callback, hcb]
  · intro hnone
    simp [static_log_callback, hnone]

/-- Witness for C2 (amended): a registry whose only entry is the
global-sentinel one, consulted by a trampoline call with the null
identity. -/
theorem C2_single_exact_lookup_witness :
    (Registry.insert Registry.empty 0 9) 0 = some 9
  ∧ static_log_callback true (Registry.insert Registry.empty 0 9) 0
      LIBUSB_LOG_LEVEL_WARNING (some "hi")
      = [Event.invoke 9 (LogLevel.from_c_int LIBUSB_LOG_LEVEL_WARNING)
          ((some "hi").getD "")] :=
  ⟨rfl,
    (C2_single_exact_lookup (Registry.insert Registry.empty 0 9) 0
      LIBUSB_LOG_LEVEL_WARNING (some "hi")).1 9 rfl⟩

/-- C6: for every lock outcome, registry, identity, severity and message
buffer the trampoline is a total function delivering at most one
invocation; a missing registry entry is silently absorbed (no invocation),
and a buffer that fails UTF-8 decoding makes the registered callback run
with the empty string instead of crashing. -/
theorem C6_trampoline_total (lock_ok : Bool) (reg : Registry) (p : Ptr)
    (level : Int) (text : CMessage) :
    (static_log_callback lock_ok reg p level text).length ≤ 1
  ∧ (reg p = Option.none → static_log_callback lock_ok reg p level text = [])
  ∧ (∀ cb : CbId, reg p = some cb → text = Option.none →
      static_log_callback true reg p level text
        = [Event.invoke cb (LogLevel.from_c_int level) ""]) := by
  refine ⟨?_, ?_, ?_⟩
  · cases lock_ok with
    | false => simp [static_log_callback]
    | true =>
        cases hreg : reg p <;> simp [static_log_callback, hreg]
  · intro hnone
    cases lock_ok <;> simp [static_log_callback, hnone]
  · intro cb hcb htext
    simp [static_log_callback, hcb, htext, Option.getD]

/-- Witness for C6: an entry for identity `2` and an undecodable buffer
(`none`): the callback runs with the empty string. -/
theorem C6_trampoline_total_witness :
    (Registry.insert Registry.empty 2 5) 2 = some 5
  ∧ static_log_callback true (Registry.insert Registry.empty 2 5) 2
      LIBUSB_LOG_LEVEL_DEBUG Option.none
      = [Event.invoke 5 (LogLevel.from_c_int LIBUSB_LOG_LEVEL_DEBUG) ""] :=
  ⟨rfl,
    (C6_trampoline_total true (Registry.insert Registry.empty 2 5) 2
      LIBUSB_LOG_LEVEL_DEBUG Option.none).2.2 5 rfl rfl⟩

/-- C7: registering callback `a` and then callback `b` under the same key
leaves exactly `b` registered there (the registry maps each key to at most
one callback), and a subsequent log line for that key invokes only `b`,
never `a`. -/
theorem C7_last_write_wins (s : LibState) (c : Context) (a b : CbId)
    (mode : LogCallbackMode) (level : Int) (text : CMessage) (hab : a ≠ b) :
    (Context.set_log_callback c b mode
        (Context.set_log_callback c a mode s)).log_callback_map (logKey mode c)
      = some b
  ∧ static_log_callback true
      (Context.set_log_callback c b mode
        (Context.set_log_callback c a mode s)).log_callback_map
      (logKey mode c) level text
      = [Event.invoke b (LogLevel.from_c_int level) (text.getD "")]
  ∧ Event.invoke a (LogLevel.from_c_int level) (text.getD "") ∉
      static_log_callback true
        (Context.set_log_callback c b mode
          (Context.set_log_callback c a mode s)).log_callback_map
        (logKey mode c) level text := by
  have hreg : (Context.set_log_callback c b mode
      (Context.set_log_callback c a mode s)).log_callback_map (logKey mode c)
      = some b := by
    simp [Context.set_log_callback_registry, Registry.insert]
  refine ⟨hreg, ?_, ?_⟩
  · simp [static_log_callback, hreg]
  · simp [static_log_callback, hreg, hab]

/-- Witness for C7: callbacks `3` then `4` registered in `Context` mode for
the context at pointer `1`; only `4` runs. -/
theorem C7_last_write_wins_witness :
    (3 : CbId) ≠ 4
  ∧ ((Context.set_log_callback ⟨1⟩ 4 LogCallbackMode.Context
        (Context.set_log_callback ⟨1⟩ 3 LogCallbackMode.Context initState)).log_callback_map
        (logKey LogCallbackMode.Context ⟨1⟩) = some 4
      ∧ static_log_callback true
          (Context.set_log_callback ⟨1⟩ 4 LogCallbackMode.Context
            (Context.set_log_callback ⟨1⟩ 3 LogCallbackMode.Context initState)).log_callback_map
          (logKey LogCallbackMode.Context ⟨1⟩) LIBUSB_LOG_LEVEL_ERROR (some "x")
          = [Event.invoke 4 (LogLevel.from_c_int LIBUSB_LOG_LEVEL_ERROR)
              ((some "x").getD "")]
      ∧ Event.invoke 3 (LogLevel.from_c_int LIBUSB_LOG_LEVEL_ERROR)
            ((some "x").getD "") ∉
          static_log_callback true
            (Context.set_log_callback ⟨1⟩ 4 LogCallbackMode.Context
              (Context.set_log_callback ⟨1⟩ 3 LogCallbackMode.Context initState)).log_callback_map
            (logKey LogCallbackMode.Context ⟨1⟩) LIBUSB_LOG_LEVEL_ERROR (some "x")) :=
  ⟨by decide,
    C7_last_write_wins initState ⟨1⟩ 3 4 LogCallbackMode.Context
      LIBUSB_LOG_LEVEL_ERROR (some "x") (by decide)⟩

/-- C10: dropping a `Context` removes at most the single registry entry
keyed by its own raw pointer; every other key is left unchanged, and in
particular a Global-scope entry (stored under the null key `0`) survives
every `Context` drop, since a constructed context's pointer is never
null. -/
theorem C10_drop_is_frame (s : LibState) (c : Context) (k : Ptr) (g : CbId)
    (hk : k ≠ c.context) (h0 : c.context ≠ 0)
    (hg : s.log_callback_map 0 = some g) :
    (Context.drop c s).log_callback_map c.context = Option.none
  ∧ (Context.drop c s).log_callback_map k = s.log_callback_map k
  ∧ (Context.drop c s).log_callback_map 0 = some g := by
  rw [Context.drop_registry]
  refine ⟨?_, ?_, ?_⟩
  · simp [Registry.remove]
  · simp [Registry.remove, hk]
  · simp [Registry.remove, Ne.symm h0, hg]

/-- Witness for C10: a Global callback `9` and a `Context`-mode callback
`7` for pointer `2`; dropping the context at pointer `2` removes only its
own entry, leaving key `3` and the global key `0` untouched. -/
theorem C10_drop_is_frame_witness :
    ((3 : Ptr) ≠ 2 ∧ (2 : Ptr) ≠ 0
      ∧ (Context.set_log_callback ⟨2⟩ 7 LogCallbackMode.Context
          (Context.set_log_callback ⟨2⟩ 9 LogCallbackMode.Global initState)).log_callback_map 0
          = some 9)
  ∧ ((Context.drop ⟨2⟩
        (Context.set_log_callback ⟨2⟩ 7 LogCallbackMode.Context
          (Context.set_log_callback ⟨2⟩ 9 LogCallbackMode.Global initState))).log_callback_map 2
        = Option.none
      ∧ (Context.drop ⟨2⟩
          (Context.set_log_callback ⟨2⟩ 7 LogCallbackMode.Context
            (Context.set_log_callback ⟨2⟩ 9 LogCallbackMode.Global initState))).log_callback_map 3
          = (Context.set_log_callback ⟨2⟩ 7 LogCallbackMode.Context
              (Context.set_log_callback ⟨2⟩ 9 LogCallbackMode.Global initState)).log_callback_map 3
      ∧ (Context.drop ⟨2⟩
          (Context.set_log_callback ⟨2⟩ 7 LogCallbackMode.Context
            (Context.set_log_callback ⟨2⟩ 9 LogCallbackMode.Global initState))).log_callback_map 0
          = some 9) :=
  ⟨⟨by decide, by decide, rfl⟩,
    C10_drop_is_frame
      (Context.set_log_callback ⟨2⟩ 7 LogCallbackMode.Context
        (Context.set_log_callback ⟨2⟩ 9 LogCallbackMode.Global initState))
      ⟨2⟩ 3 9 (by decide) (by decide) rfl⟩

set_option maxHeartbeats 2000000 in
/-- `error::from_libusb` always preserves the native status code. -/
theorem toCode_error_from_libusb (code : Int) :
    USBError.toCode (error_from_libusb code) = code := by
  unfold error_from_libusb
  split_ifs <;> subst_vars <;> rfl

/-! C1 scenario: create a context at pointer `1`, register a
`Context`-scope callback `7`, clone the context, then drop the clone while
the original is still alive. -/

/-- The result of `Context::new` when the mock returns the fresh pointer
`1` with status `0`. -/
def c1Step0 : LibState × Except USBError Context := Context.new initState 1 0

/-- The context produced by `Context::new` above (status `0` succeeds, so
the default is never used). -/
def c1Ctx : Context := (c1Step0.2.toOption).getD ⟨0⟩

/-- The state after registering the `Context`-scope callback `7`. -/
def c1AfterRegister : LibState :=
  Context.set_log_callback c1Ctx 7 LogCallbackMode.Context c1Step0.1

/-- A clone of the context (Arc strong count becomes `2`). -/
def c1Cloned : Context × LibState := Context.clone c1Ctx c1AfterRegister

/-- The state after dropping the clone (one owning reference remains). -/
def c1AfterDropClone : LibState := Context.drop c1Cloned.1 c1Cloned.2

/-- C1: the claim states that a Context's registry entry is removed only
when its last owning reference disappears, so that after registering a
Context-scope callback and dropping all but one clone the entry is still
present and its log lines still invoke the callback.  The code violates
this: `Drop for Context` runs for every `Context` value, clones included,
and removes the entry unconditionally.  In the scenario above, after
dropping one of the two clones the remaining owner is still alive (strong
count `1`, no `libusb_exit` issued) yet the registry entry for pointer `1`
is gone and the trampoline invokes nothing for its log lines. -/
theorem C1_dropping_a_clone_removes_the_registry_entry :
    c1AfterRegister.log_callback_map 1 = some 7
  ∧ c1AfterDropClone.log_callback_map 1 = Option.none
  ∧ c1AfterDropClone.strong 1 = 1
  ∧ c1AfterDropClone.calls.count (NCall.exit 1) = 0
  ∧ static_log_callback true c1AfterDropClone.log_callback_map 1
      LIBUSB_LOG_LEVEL_INFO (some "msg") = [] := by
  refine ⟨rfl, rfl, rfl, rfl, rfl⟩

/-- C3: after a `Context` is dropped, any subsequent trampoline call with
its now-stale identity invokes no callback (and, the trampoline being a
total function, cannot panic), no matter which further context operations
run, provided none of them registers a callback under that same identity;
and if a later context reuses the identity and registers a callback, a
trampoline call for that identity invokes exactly the new callback. -/
theorem C3_stale_identity_silent (s : LibState) (c : Context) (ops : List COp)
    (level : Int) (text : CMessage)
    (hops : ∀ op ∈ ops, COp.insertsAt op c.context = false) :
    static_log_callback true (runOps (Context.drop c s) ops).log_callback_map
        c.context level text = []
  ∧ ∀ (cNew : Context) (cbNew : CbId), cNew.context = c.context →
      static_log_callback true
        (Context.set_log_callback cNew cbNew LogCallbackMode.Context
          (runOps (Context.drop c s) ops)).log_callback_map
        c.context level text
        = [Event.invoke cbNew (LogLevel.from_c_int level) (text.getD "")] := by
  have hnone : (runOps (Context.drop c s) ops).log_callback_map c.context
      = Option.none := by
    refine registry_none_preserved c.context ops (Context.drop c s) ?_ hops
    rw [Context.drop_registry]
    simp [Registry.remove]
  constructor
  · simp [static_log_callback, hnone]
  · intro cNew cbNew hEq
    have hcb : (Context.set_log_callback cNew cbNew LogCallbackMode.Context
        (runOps (Context.drop c s) ops)).log_callback_map c.context
        = some cbNew := by
      rw [Context.set_log_callback_registry]
      simp [Registry.insert, logKey, hEq]
    simp [static_log_callback, hcb]

/-- Witness for C3: the context at pointer `1` had callback `7` registered
and is dropped; an unrelated context at pointer `2` then registers its own
callback.  Log lines for identity `1` invoke nothing, until a new context
reusing pointer `1` registers callback `8`, which then runs alone. -/
theorem C3_stale_identity_silent_witness :
    (∀ op ∈ [COp.setCbOp ⟨2⟩ 6 LogCallbackMode.Context],
        COp.insertsAt op (Context.context ⟨1⟩) = false)
  ∧ static_log_callback true
      (runOps
        (Context.drop ⟨1⟩
          (Context.set_log_callback ⟨1⟩ 7 LogCallbackMode.Context initState))
        [COp.setCbOp ⟨2⟩ 6 LogCallbackMode.Context]).log_callback_map
      (Context.context ⟨1⟩) LIBUSB_LOG_LEVEL_INFO (some "late") = []
  ∧ static_log_callback true
      (Context.set_log_callback ⟨1⟩ 8 LogCallbackMode.Context
        (runOps
          (Context.drop ⟨1⟩
            (Context.set_log_callback ⟨1⟩ 7 LogCallbackMode.Context initState))
          [COp.setCbOp ⟨2⟩ 6 LogCallbackMode.Context])).log_callback_map
      (Context.context ⟨1⟩) LIBUSB_LOG_LEVEL_INFO (some "late")
      = [Event.invoke 8 (LogLevel.from_c_int LIBUSB_LOG_LEVEL_INFO)
          ((some "late").getD "")] :=
  ⟨by decide,
    (C3_stale_identity_silent
      (Context.set_log_callback ⟨1⟩ 7 LogCallbackMode.Context initState) ⟨1⟩
      [COp.setCbOp ⟨2⟩ 6 LogCallbackMode.Context]
      LIBUSB_LOG_LEVEL_INFO (some "late") (by decide)).1,
    (C3_stale_identity_silent
      (Context.set_log_callback ⟨1⟩ 7 LogCallbackMode.Context initState) ⟨1⟩
      [COp.setCbOp ⟨2⟩ 6 LogCallbackMode.Context]
      LIBUSB_LOG_LEVEL_INFO (some "late") (by decide)).2 ⟨1⟩ 8 rfl⟩

/-- C4: `devices()` returns the enumeration error carrying the native
status code whenever the native get-device-list call reports a negative
count, and for a non-negative count `n` it returns a device list of length
exactly `n` holding a strong reference to the context (the `Arc` strong
count goes up by one). -/
theorem C4_devices_result (c : Context) (s : LibState) (n : Int) (list : Ptr) :
    (n < 0 →
      (Context.devices c s n list).2 = Except.error (error_from_libusb n)
      ∧ USBError.toCode (error_from_libusb n) = n)
  ∧ (0 ≤ n → ∃ dl : DeviceList,
      (Context.devices c s n list).2 = Except.ok dl
      ∧ dl.len = n.toNat
      ∧ dl.context.context = c.context
      ∧ (Context.devices c s n list).1.strong c.context
          = s.strong c.context + 1) := by
  constructor
  · intro hn
    exact ⟨by simp [Context.devices, hn], toCode_error_from_libusb n⟩
  · intro hn
    have hn2 : ¬ n < 0 := not_lt.mpr hn
    refine ⟨DeviceList.from_libusb ⟨c.context⟩ list n.toNat, ?_, rfl, rfl, ?_⟩
    · simp [Context.devices, hn2, Context.clone]
    · simp [Context.devices, hn2, Context.clone]

/-- Witness for C4: the mock reports count `-3` (an error) and then count
`2` (two devices) for the context at pointer `1`. -/
theorem C4_devices_result_witness :
    ((-3 : Int) < 0
      ∧ ((Context.devices ⟨1⟩ initState (-3) 4).2
            = Except.error (error_from_libusb (-3))
          ∧ USBError.toCode (error_from_libusb (-3)) = -3))
  ∧ ((0 : Int) ≤ 2
      ∧ ∃ dl : DeviceList,
          (Context.devices ⟨1⟩ initState 2 4).2 = Except.ok dl
          ∧ dl.len = (2 : Int).toNat
          ∧ dl.context.context = Context.context ⟨1⟩
          ∧ (Context.devices ⟨1⟩ initState 2 4).1.strong (Context.context ⟨1⟩)
              = initState.strong (Context.context ⟨1⟩) + 1) :=
  ⟨⟨by decide, (C4_devices_result ⟨1⟩ initState (-3) 4).1 (by decide)⟩,
    ⟨by decide, (C4_devices_result ⟨1⟩ initState 2 4).2 (by decide)⟩⟩

/-- C5: `open_device_with_vid_pid` returns `None` exactly when the native
call reports no match or any failure (a null handle — every error detail is
discarded), and returns `Some` handle wrapping the native handle and a
strong reference to this context exactly when the native call yields a
non-null handle. -/
theorem C5_open_vid_pid_result (c : Context) (s : LibState)
    (vendor_id product_id : Nat) (handle : Ptr) :
    ((Context.open_device_with_vid_pid c s vendor_id product_id handle).2
        = Option.none ↔ handle = 0)
  ∧ (∀ dh : DeviceHandle,
      (Context.open_device_with_vid_pid c s vendor_id product_id handle).2
          = some dh →
        dh.context.context = c.context
        ∧ dh.handle = handle
        ∧ (Context.open_device_with_vid_pid c s vendor_id product_id
              handle).1.strong c.context = s.strong c.context + 1) := by
  by_cases h : handle = 0
  · constructor
    · simp [Context.open_device_with_vid_pid, h]
    · intro dh hdh
      simp [Context.open_device_with_vid_pid, h] at hdh
  · constructor
    · simp [Context.open_device_with_vid_pid, h]
    · intro dh hdh
      simp [Context.open_device_with_vid_pid, h, DeviceHandle.from_libusb,
        Context.clone] at hdh
      refine ⟨?_, ?_, ?_⟩
      · rw [← hdh]
      · rw [← hdh]
      · simp [Context.open_device_with_vid_pid, h, Context.clone]

/-- Witness for C5: the native call returns null for vid/pid `(2, 3)`
(`None`), and the non-null handle `7` for vid/pid `(2, 4)` (`Some` handle
referencing the context and bumping its strong count). -/
theorem C5_open_vid_pid_result_witness :
    (Context.open_device_with_vid_pid ⟨1⟩ initState 2 3 0).2 = Option.none
  ∧ ((DeviceHandle.mk ⟨1⟩ 7).context.context = Context.context ⟨1⟩
      ∧ (DeviceHandle.mk ⟨1⟩ 7).handle = 7
      ∧ (Context.open_device_with_vid_pid ⟨1⟩ initState 2 4 7).1.strong
          (Context.context ⟨1⟩)
          = initState.strong (Context.context ⟨1⟩) + 1) :=
  ⟨(C5_open_vid_pid_result ⟨1⟩ initState 2 3 0).1.mpr rfl,
    (C5_open_vid_pid_result ⟨1⟩ initState 2 4 7).2 ⟨⟨1⟩, 7⟩ rfl⟩

/-! C8 scenario: a native device at pointer `5` whose single native
reference is the one the enumeration's device list holds, and a live
context at pointer `1`. -/

/-- A state with a live context at pointer `1` (strong count `1`) and a
native device at pointer `5` with native reference count `1`. -/
def c8Start : LibState :=
  { initState with
      strong := fun x => if x = 1 then 1 else 0
      dev_refcount := fun x => if x = 5 then 1 else 0 }

/-- The `Device` built by `device::from_libusb` over pointer `5`. -/
def c8Made : Device × LibState := Device.from_libusb ⟨1⟩ 5 c8Start

/-- C8: the claim states that a `Device` holds its native device reference
count elevated by one unit taken at creation and releases that unit with a
native unref-device call on destruction.  Counterexample: creating the
`Device` over pointer `5` leaves the native count at `1` (not elevated to
`2`) and issues no ref-device call, and destroying it issues no
unref-device call and leaves the count at `1` — `device::from_libusb`
takes no reference and `Device` has no `Drop` impl. -/
theorem C8_counterexample :
    c8Start.dev_refcount 5 = 1
  ∧ c8Made.2.dev_refcount 5 = 1
  ∧ c8Made.2.calls.count (NCall.refDevice 5) = 0
  ∧ (Device.drop c8Made.1 c8Made.2).calls.count (NCall.unrefDevice 5) = 0
  ∧ (Device.drop c8Made.1 c8Made.2).dev_refcount 5 = 1 := by
  refine ⟨rfl, rfl, rfl, rfl, rfl⟩

/-- C8 (amended): a `Device` holds the raw native device pointer plus a
strong reference to its owning `Context`, but manages no native device
reference of its own: creating it (`device::from_libusb`) performs no
native call at all, and destroying it performs no ref/unref-device call
and leaves every native device reference count unchanged — its only drop
effect is dropping its `Context` field.  Keeping the native device alive
is left to whoever produced the pointer. -/
theorem C8_no_device_refcounting (c : Context) (d : Ptr) (dev : Device)
    (s : LibState) (q : Ptr) :
    Device.from_libusb c d s = (⟨c, d⟩, s)
  ∧ (Device.drop dev s).dev_refcount q = s.dev_refcount q
  ∧ (Device.drop dev s).calls.count (NCall.refDevice q)
      = s.calls.count (NCall.refDevice q)
  ∧ (Device.drop dev s).calls.count (NCall.unrefDevice q)
      = s.calls.count (NCall.unrefDevice q)
  ∧ Device.drop dev s = Context.drop dev.context s := by
  refine ⟨rfl, ?_, ?_, ?_, rfl⟩ <;>
    by_cases h : s.strong dev.context.context ≤ 1 <;>
      simp [Device.drop, Context.drop, h, List.count_append]

/-! C9: the default (null) context's init/exit protocol. -/

/-- Running default-context operations preserves the alternation
invariant: the trace of native calls on the null context alternates
`init`, `exit`, ... in lock step with the initialized flag, provided
every native init the mock performs succeeds. -/
theorem defaultAlt_invariant :
    ∀ (ops : List DOp) (s : LibState),
      defaultAlt s.calls = some s.default_context_initialized_flag →
      (∀ op ∈ ops, 0 ≤ DOp.rcOf op) →
      defaultAlt (runDefaultOps s ops).calls
        = some (runDefaultOps s ops).default_context_initialized_flag := by
  intro ops
  induction ops with
  | nil => intro s h _; exact h
  | cons op rest ih =>
    intro s h hops
    have htail : ∀ o ∈ rest, 0 ≤ DOp.rcOf o :=
      fun o ho => hops o (List.mem_cons_of_mem _ ho)
    cases op with
    | initOp rc =>
        have hrc : ¬ rc < 0 :=
          not_lt.mpr (by simpa [DOp.rcOf] using hops _ (List.mem_cons_self _ _))
        show defaultAlt (runDefaultOps (Context.init_default_context s rc).1 rest).calls = _
        refine ih _ ?_ htail
        cases hf : s.default_context_initialized_flag with
        | true => simpa [Context.init_default_context, hf] using h
        | false =>
            rw [hf] at h
            have hstate : (Context.init_default_context s rc).1
                = { s with
                    calls := s.calls ++ [NCall.init 0]
                    default_context_initialized_flag := true } := by
              simp [Context.init_default_context, hf, hrc]
            rw [hstate]
            unfold defaultAlt at h ⊢
            rw [List.foldl_append, h]
            rfl
    | releaseOp =>
        show defaultAlt (runDefaultOps (Context.release_default_context s) rest).calls = _
        refine ih _ ?_ htail
        cases hf : s.default_context_initialized_flag with
        | false => simpa [Context.release_default_context, hf] using h
        | true =>
            rw [hf] at h
            have hstate : Context.release_default_context s
                = { s with
                    calls := s.calls ++ [NCall.exit 0]
                    default_context_initialized_flag := false } := by
              simp [Context.release_default_context, hf]
            rw [hstate]
            unfold defaultAlt at h ⊢
            rw [List.foldl_append, h]
            rfl

/-- C9: `init_default_context` and `release_default_context` make the
native initialize and exit calls on the null context strictly alternate,
starting with initialize: init is a no-op returning `Ok` when already
initialized, performs the native call and sets the flag only when not;
release performs the native exit call only when the flag records a
matching un-released init, then clears the flag.  Consequently, over every
sequence of these calls (with the mock's inits succeeding), the null
context's native call trace satisfies the alternation checker, ending in
the flag's state. -/
theorem C9_default_context_alternation :
    (∀ (s : LibState) (rc : Int), s.default_context_initialized_flag = true →
        Context.init_default_context s rc = (s, Except.ok ()))
  ∧ (∀ (s : LibState) (rc : Int), s.default_context_initialized_flag = false →
        0 ≤ rc →
        (Context.init_default_context s rc).1.calls = s.calls ++ [NCall.init 0]
        ∧ (Context.init_default_context s rc).1.default_context_initialized_flag
            = true
        ∧ (Context.init_default_context s rc).2 = Except.ok ())
  ∧ (∀ s : LibState, s.default_context_initialized_flag = false →
        Context.release_default_context s = s)
  ∧ (∀ s : LibState, s.default_context_initialized_flag = true →
        (Context.release_default_context s).calls = s.calls ++ [NCall.exit 0]
        ∧ (Context.release_default_context s).default_context_initialized_flag
            = false)
  ∧ (∀ ops : List DOp, (∀ op ∈ ops, 0 ≤ DOp.rcOf op) →
        defaultAlt (runDefaultOps initState ops).calls
          = some (runDefaultOps initState ops).default_context_initialized_flag) := by
  refine ⟨?_, ?_, ?_, ?_, ?_⟩
  · intro s rc h
    simp [Context.init_default_context, h]
  · intro s rc h hrc
    refine ⟨?_, ?_, ?_⟩ <;> simp [Context.init_default_context, h, not_lt.mpr hrc]
  · intro s h
    simp [Context.release_default_context, h]
  · intro s h
    exact ⟨by simp [Context.release_default_context, h],
      by simp [Context.release_default_context, h]⟩
  · intro ops hok
    exact defaultAlt_invariant ops initState rfl hok

/-- Witness for C9: the sequence init, init (repeated, a no-op), release,
init leaves a strictly alternating `init 0`, `exit 0`, `init 0` trace with
the flag set; and on the state after the first init (flag set), a further
init call is a no-op returning `Ok`. -/
theorem C9_default_context_alternation_witness :
    (∀ op ∈ [DOp.initOp 0, DOp.initOp 0, DOp.releaseOp, DOp.initOp 0],
        0 ≤ DOp.rcOf op)
  ∧ defaultAlt
      (runDefaultOps initState
        [DOp.initOp 0, DOp.initOp 0, DOp.releaseOp, DOp.initOp 0]).calls
      = some (runDefaultOps initState
          [DOp.initOp 0, DOp.initOp 0, DOp.releaseOp, DOp.initOp 0]).default_context_initialized_flag
  ∧ ((runDefaultOps initState [DOp.initOp 0]).default_context_initialized_flag
        = true
      ∧ Context.init_default_context (runDefaultOps initState [DOp.initOp 0]) 5
          = (runDefaultOps initState [DOp.initOp 0], Except.ok ())) :=
  ⟨by decide,
    C9_default_context_alternation.2.2.2.2
      [DOp.initOp 0, DOp.initOp 0, DOp.releaseOp, DOp.initOp 0] (by decide),
    by decide,
    C9_default_context_alternation.1 (runDefaultOps initState [DOp.initOp 0]) 5
      (by decide)⟩

end Libusb
